import Mathlib

/-!
Verification of the data aggregation and normalization core of `lk_flood_api`
(`app/services/github_data.py`), shallowly embedded in Lean.

Modelling conventions:
* Python floats are modelled as rationals (all the arithmetic involved is
  comparison, subtraction and one exact division).
* A Python dict used as a keyed table is an association list built by
  prepending, so the most recently inserted binding wins on lookup, exactly
  as Python assignment-then-lookup behaves.
* A JSON object field read with `d.get(key, default)` is an `Option` field
  plus `Option.getD default` at the read site; `d.get(key)` is the plain
  `Option`.
* `float("inf")` as a threshold default is modelled by `none`: a finite
  level compared with `>=` against `+inf` is always `False`.
* Network effects are abstracted into explicit inputs: each fetching
  function takes the upstream payload (or its absence) as a parameter.
-/

namespace LkFloodApi

/-! ## Generic helpers for Python semantics -/

/-- Python `d.get(k)` for dicts modelled as association lists (most recent
binding first). -/
def dictGet {α : Type} (d : List (String × α)) (k : String) : Option α :=
  match d with
  | [] => none
  | (k₁, v) :: rest => if k₁ = k then some v else dictGet rest k

/-- Python string comparison `a < b`: lexicographic on Unicode code points. -/
def ltChars : List Char → List Char → Bool
  | _, [] => false
  | [], _ :: _ => true
  | a :: xs, b :: ys =>
    if a.toNat < b.toNat then true
    else if b.toNat < a.toNat then false
    else ltChars xs ys

/-- Python `a < b` on strings. -/
def pyStrLt (a b : String) : Bool := ltChars a.data b.data

/-- Python `a <= b` on strings (total order, so `a <= b` iff `not (b < a)`). -/
def pyStrLe (a b : String) : Bool := !(pyStrLt b a)

/-- One insertion step of a descending sort. -/
def insertDesc (x : String) : List String → List String
  | [] => [x]
  | y :: ys => if pyStrLe y x then x :: y :: ys else y :: insertDesc x ys

/-- Python `list.sort(reverse=True)` on strings: sort descending. (Equal
strings are identical, so any correct descending sort produces this list.) -/
def sortDesc : List String → List String
  | [] => []
  | x :: xs => insertDesc x (sortDesc xs)

/-- Python `sub in s` substring test. -/
def strContains (s sub : String) : Bool :=
  (List.range (s.data.length + 1)).any (fun i => sub.data.isPrefixOf (s.data.drop i))

/-- Python `s.endswith(pat)`. -/
def endswith (s pat : String) : Bool := pat.data.isSuffixOf s.data

/-- Fuel-based worker for `pySplit` (the fuel is an upper bound on the number
of characters still to be consumed, so it never runs out in `pySplit`). -/
def splitChars (pat : List Char) : Nat → List Char → List Char → List (List Char)
  | _, [], acc => [acc.reverse]
  | 0, l, acc => [acc.reverse ++ l]
  | fuel + 1, c :: rest, acc =>
    if pat.isPrefixOf (c :: rest) then
      acc.reverse :: splitChars pat fuel ((c :: rest).drop pat.length) []
    else
      splitChars pat fuel rest (c :: acc)

/-- Python `s.split(pat)` for a nonempty separator `pat`. -/
def pySplit (s pat : String) : List String :=
  (splitChars pat.data s.data.length s.data []).map (fun l => String.mk l)

/-- Python `s.replace(pat, "")` for a nonempty `pat`: drop every occurrence. -/
def removeAllOccurrences (s pat : String) : String := String.join (pySplit s pat)

/-! ## The embedded source functions and data model -/

/-- Extract timestamp from a filename like `2025-12-01-12-30-water-level.json`
(source: `parse_timestamp_from_filename`). -/
def parse_timestamp_from_filename (filename : String) : String :=
  let date_part := removeAllOccurrences filename "-water-level.json"
  let parts := pySplit date_part "-"
  if parts.length ≥ 5 then
    parts.getD 0 "" ++ "-" ++ parts.getD 1 "" ++ "-" ++ parts.getD 2 "" ++ " " ++
      parts.getD 3 "" ++ ":" ++ parts.getD 4 "" ++ ":00"
  else ""

/-- The apostrophe character (code point 39). -/
def squote : Char := Char.ofNat 39

/-- True for the characters that survive the `.replace(c, "")` chain of
`normalize_station_name` (apostrophe, space and parentheses are removed). -/
def keepChar (c : Char) : Bool := !(c == squote || c == ' ' || c == '(' || c == ')')

/-- Python `s.lower()` (ASCII case folding, which covers every station
spelling that occurs). -/
def pyLower (s : String) : String := String.mk (s.data.map Char.toLower)

/-- `.lower().replace("'", "").replace(" ", "").replace("(", "").replace(")", "")`:
lowercase, then drop apostrophes, spaces and parentheses. -/
def foldName (s : String) : String := String.mk ((pyLower s).data.filter keepChar)

/-- The hand-curated alias table `STATION_NAME_MAP` (live-feed spelling to
static-reference spelling). -/
def STATION_NAME_MAP : List (String × String) := [
  ("Nagalagam Street", "N" ++ String.mk [squote] ++ " Street"),
  ("Kithulgala", "Kitulgala"),
  ("Rathnapura", "Ratnapura"),
  ("Thawalama", "Tawalama"),
  ("Thanamalwila", "Tanamalwila"),
  ("Thaldena", "Taldena"),
  ("Horowpothana", "Horowpatana"),
  ("Yaka Wewa", "Yakawewa"),
  ("Thanthirimale", "Tantirimale"),
  ("Padiyathalawa", "Padiyatalawa"),
  ("Manampitiya", "Manampitiya (HMIS)"),
  ("Weraganthota", "Weragantota")]

/-- Normalize a station name for matching with static data
(source: `normalize_station_name`). -/
def normalize_station_name (name : String) : String :=
  foldName ((dictGet STATION_NAME_MAP name).getD name)

/-- The dict argument of `calculate_alert_status`; `none` models an absent key
(which the source defaults to `float("inf")`). -/
structure AlertThresholds where
  alert_level : Option ℚ
  minor_flood_level : Option ℚ
  major_flood_level : Option ℚ
deriving DecidableEq

/-- `water_level >= station.get(key, float("inf"))`: false whenever the key is
absent, because a finite level never reaches `+inf`. -/
def crossesThreshold (level : ℚ) : Option ℚ → Bool
  | none => false
  | some t => decide (t ≤ level)

/-- Source: `calculate_alert_status`. -/
def calculate_alert_status (water_level : Option ℚ) (station : AlertThresholds) : String :=
  match water_level with
  | none => "NO_DATA"
  | some level =>
    if crossesThreshold level station.major_flood_level then "MAJOR"
    else if crossesThreshold level station.minor_flood_level then "MINOR"
    else if crossesThreshold level station.alert_level then "ALERT"
    else "NORMAL"

/-- The dict argument of `calculate_flood_score`; `none` models an absent key
(which the source defaults to `0`). -/
structure ScoreThresholds where
  alert_level : Option ℚ
  major_flood_level : Option ℚ
deriving DecidableEq

/-- Source: `calculate_flood_score`. -/
def calculate_flood_score (water_level : Option ℚ) (station : ScoreThresholds) : Option ℚ :=
  match water_level with
  | none => none
  | some level =>
    let alert := station.alert_level.getD 0
    let major := station.major_flood_level.getD 0
    if major ≤ alert then none
    else some ((level - alert) / (major - alert))

/-- One entry of the dict returned by `get_irrigation_latest_levels`
(station_name maps to `{water_level, time_ut, timestamp}`). -/
structure IrrLatestEntry where
  water_level : Option ℚ
  time_ut : Int
  timestamp : String
deriving DecidableEq

/-- One element of the static `gauging_stations.json` list (lk_dmc_vis);
`none` models an absent key. -/
structure StaticStation where
  name : Option String
  lat_lng : Option (ℚ × ℚ)
  river_name : Option String
  alert_level : Option ℚ
  minor_flood_level : Option ℚ
  major_flood_level : Option ℚ
deriving DecidableEq

/-- One element of the static `stations.json` list (lk_irrigation, `*_m`
field names); `none` models an absent key. -/
structure IrrStaticStation where
  name : Option String
  lat_lng : Option (ℚ × ℚ)
  river_name : Option String
  alert_level_m : Option ℚ
  minor_flood_level_m : Option ℚ
  major_flood_level_m : Option ℚ
deriving DecidableEq

/-- The dict values stored in `station_data` / `irrigation_station_data`
inside `get_latest_water_levels` (every key is present there). -/
structure StationStaticData where
  lat_lng : ℚ × ℚ
  river_name : String
  alert_level : ℚ
  minor_flood_level : ℚ
  major_flood_level : ℚ
deriving DecidableEq

/-- One element of the primary feed's `d_list`; `none` models an absent key. -/
structure DmcItem where
  gauging_station_name : Option String
  current_water_level : Option ℚ
  previous_water_level : Option ℚ
  rising_or_falling : Option String
  rainfall_mm : Option ℚ
  remarks : Option String
deriving DecidableEq

/-- The per-station record appended to `results` in `get_latest_water_levels`. -/
structure WaterLevelRecord where
  station_name : String
  river_name : String
  river_basin_name : String
  lat_lng : ℚ × ℚ
  water_level : Option ℚ
  previous_water_level : Option ℚ
  alert_level : ℚ
  minor_flood_level : ℚ
  major_flood_level : ℚ
  alert_status : String
  flood_score : Option ℚ
  rising_or_falling : String
  rainfall_mm : ℚ
  remarks : String
  timestamp : String
deriving DecidableEq

/-- The `station_data` dict: DMC static stations keyed by NORMALIZED name
(source: `get_latest_water_levels`, loop over `static_stations`). -/
def build_station_data (static_stations : List StaticStation) :
    List (String × StationStaticData) :=
  static_stations.foldl
    (fun d s =>
      (normalize_station_name (s.name.getD ""),
        ({ lat_lng := s.lat_lng.getD (0, 0),
           river_name := s.river_name.getD "",
           alert_level := s.alert_level.getD 0,
           minor_flood_level := s.minor_flood_level.getD 0,
           major_flood_level := s.major_flood_level.getD 0 } : StationStaticData)) :: d) []

/-- The `irrigation_station_data` dict: lk_irrigation static stations keyed by
RAW name (source: `get_latest_water_levels`, loop over `irrigation_static`). -/
def build_irrigation_station_data (irrigation_static : List IrrStaticStation) :
    List (String × StationStaticData) :=
  irrigation_static.foldl
    (fun d s =>
      (s.name.getD "",
        ({ lat_lng := s.lat_lng.getD (0, 0),
           river_name := s.river_name.getD "",
           alert_level := s.alert_level_m.getD 0,
           minor_flood_level := s.minor_flood_level_m.getD 0,
           major_flood_level := s.major_flood_level_m.getD 0 } : StationStaticData)) :: d) []

/-- The water level / timestamp selection of the loop body: `irr_data =
irrigation_levels.get(station_name)`, then `if irr_data and
irr_data.get("water_level") is not None:` prefer the irrigation reading and
its own timestamp, `else` the DMC reading and the filename-derived timestamp.
(The dict values stored in `irrigation_levels` are never empty, so the
truthiness test `if irr_data` is exactly the `some` case.) -/
def mergedLevelTimestamp (dmc_timestamp : String)
    (irrigation_levels : List (String × IrrLatestEntry))
    (item : DmcItem) : Option ℚ × String :=
  match dictGet irrigation_levels (item.gauging_station_name.getD "") with
  | some d =>
    if d.water_level.isSome then (d.water_level, d.timestamp)
    else (item.current_water_level, dmc_timestamp)
  | none => (item.current_water_level, dmc_timestamp)

/-- The static-data selection of the loop body: `irr_static =
irrigation_station_data.get(station_name, {})` (RAW name), `dmc_static =
station_data.get(normalize_station_name(station_name), {})` (NORMALIZED
name); use irrigation static if truthy (= present, the stored dicts are
nonempty), else DMC static, with `.get(key, default)` defaults on the
`dmc_static` side and the `or`-fallback on `river_name`. -/
def mergedStatic (station_data irrigation_station_data : List (String × StationStaticData))
    (item : DmcItem) : StationStaticData :=
  let station_name := item.gauging_station_name.getD ""
  let dmc_static := dictGet station_data (normalize_station_name station_name)
  match dictGet irrigation_station_data station_name with
  | some irr_static =>
    { lat_lng := irr_static.lat_lng,
      -- `irr_static.get("river_name", "") or dmc_static.get("river_name", "")`
      river_name := if irr_static.river_name ≠ "" then irr_static.river_name
                    else (dmc_static.map (fun s => s.river_name)).getD "",
      alert_level := irr_static.alert_level,
      minor_flood_level := irr_static.minor_flood_level,
      major_flood_level := irr_static.major_flood_level }
  | none =>
    { lat_lng := (dmc_static.map (fun s => s.lat_lng)).getD (0, 0),
      river_name := (dmc_static.map (fun s => s.river_name)).getD "",
      alert_level := (dmc_static.map (fun s => s.alert_level)).getD 0,
      minor_flood_level := (dmc_static.map (fun s => s.minor_flood_level)).getD 0,
      major_flood_level := (dmc_static.map (fun s => s.major_flood_level)).getD 0 }

/-- The alert-status selection of the loop body: numeric thresholds when a
level is present and `alert_level > 0`, otherwise the remarks-substring
heuristic, otherwise NORMAL/NO_DATA by presence of a level. -/
def mergedAlertStatus (water_level : Option ℚ)
    (alert_level minor_flood_level major_flood_level : ℚ) (remarks : String) : String :=
  if water_level.isSome ∧ 0 < alert_level then
    calculate_alert_status water_level
      { alert_level := some alert_level,
        minor_flood_level := some minor_flood_level,
        major_flood_level := some major_flood_level }
  else if strContains remarks "Major Flood" then "MAJOR"
  else if strContains remarks "Minor Flood" then "MINOR"
  else if strContains remarks "Alert" then "ALERT"
  else if water_level.isSome then "NORMAL"
  else "NO_DATA"

/-- The flood-score selection of the loop body: computed only when
`alert_level > 0`, else `None`. -/
def mergedFloodScore (water_level : Option ℚ) (alert_level major_flood_level : ℚ) : Option ℚ :=
  if 0 < alert_level then
    calculate_flood_score water_level
      { alert_level := some alert_level, major_flood_level := some major_flood_level }
  else none

/-- The loop body of `get_latest_water_levels`: build one result record from
one `d_list` item. -/
def mergeItem (dmc_timestamp : String)
    (irrigation_levels : List (String × IrrLatestEntry))
    (station_data irrigation_station_data : List (String × StationStaticData))
    (item : DmcItem) : WaterLevelRecord :=
  let lt := mergedLevelTimestamp dmc_timestamp irrigation_levels item
  let st := mergedStatic station_data irrigation_station_data item
  { station_name := item.gauging_station_name.getD ""
    river_name := st.river_name
    river_basin_name := ""  -- "Not available in this format"
    lat_lng := st.lat_lng
    water_level := lt.1
    previous_water_level := item.previous_water_level
    alert_level := st.alert_level
    minor_flood_level := st.minor_flood_level
    major_flood_level := st.major_flood_level
    alert_status := mergedAlertStatus lt.1 st.alert_level st.minor_flood_level
      st.major_flood_level (item.remarks.getD "")
    flood_score := mergedFloodScore lt.1 st.alert_level st.major_flood_level
    rising_or_falling := item.rising_or_falling.getD ""
    rainfall_mm := item.rainfall_mm.getD 0
    remarks := item.remarks.getD ""
    timestamp := lt.2 }

/-- Source: `get_latest_water_levels`. The network-dependent inputs are
parameters: `filename` is the value of `get_latest_water_level_filename()`
(`none` for the early `return []`), `data` is the fetched `d_list` payload
(`none` for a failed/empty fetch), `irrigation_levels` the dict from
`get_irrigation_latest_levels()`, and the two static lists the payloads of
`get_stations_static()` / `get_irrigation_stations_static()`. -/
def get_latest_water_levels (filename : Option String) (data : Option (List DmcItem))
    (irrigation_levels : List (String × IrrLatestEntry))
    (static_stations : List StaticStation)
    (irrigation_static : List IrrStaticStation) : List WaterLevelRecord :=
  match filename with
  | none => []
  | some fname =>
    match data with
    | none => []
    | some d_list =>
      let dmc_timestamp := parse_timestamp_from_filename fname
      let station_data := build_station_data static_stations
      let irrigation_station_data := build_irrigation_station_data irrigation_static
      d_list.map (mergeItem dmc_timestamp irrigation_levels station_data irrigation_station_data)

/-- Source: `get_latest_water_level_filename`, acting on the listed directory
entry names (a failed listing is the caller-side `none` already covered by
`get_latest_water_levels`' `filename` parameter). -/
def get_latest_water_level_filename (files : List String) : Option String :=
  let json_files := (files.filter (fun n => endswith n "-water-level.json"))
  if json_files.isEmpty then none
  else (sortDesc json_files).head?

/-- One extracted basin entry (`{"name": ..., "code": ...}`). -/
structure BasinEntry where
  name : String
  code : String
deriving DecidableEq

/-- `basin_name.split("(RB ")[1].rstrip(")")` guarded by `"(RB " in basin_name`
(source: `get_river_basins`). -/
def extract_basin_code (basin_name : String) : String :=
  if strContains basin_name "(RB " then
    String.mk (((pySplit basin_name "(RB ").getD 1 "").data.reverse.dropWhile
      (fun c => c == ')')).reverse
  else ""

/-- Source: `get_river_basins`, acting on the cached result of
`get_latest_water_levels`. The Python dict keyed by basin name, filled in
encounter order and emitted via `list(values())`, is modelled as a list with
a membership test. -/
def get_river_basins (levels : List WaterLevelRecord) : List BasinEntry :=
  if levels.isEmpty then []
  else
    levels.foldl
      (fun basins level =>
        let basin_name := level.river_basin_name
        if basin_name ≠ "" ∧ basins.all (fun b => b.name ≠ basin_name) then
          basins ++ [{ name := basin_name, code := extract_basin_code basin_name }]
        else basins) []

/-- Source: `get_basin_by_name`, acting on the same water level snapshot. -/
def get_basin_by_name (name : String) (levels : List WaterLevelRecord) : Option BasinEntry :=
  (get_river_basins levels).find? (fun b => pyLower b.name == pyLower name)

/-- Abstract outcome of one HTTP GET: either an httpx transport-level error
(an `httpx.HTTPError`), or a response with a status code and a payload that
either parses as JSON (`some`) or fails to parse (`none`). -/
inductive HttpOutcome (α : Type) where
  | transportError
  | response (status : Nat) (parsed : Option α)
deriving DecidableEq

/-- Source: `fetch_json`. httpx's `raise_for_status()` raises
`HTTPStatusError` (a subclass of `httpx.HTTPError`, hence caught) for ANY
response that is not a 2xx success — 1xx and 3xx included, and 3xx is
reachable because httpx does not follow redirects by default;
`response.json()` raises `json.JSONDecodeError` on an unparseable body, which
is NOT an `httpx.HTTPError` and therefore escapes the `except` clause.
`Except.error` marks an exception propagating to the caller; exactly one
request outcome is consumed per call (no retry). -/
def fetch_json {α : Type} : HttpOutcome α → Except String (Option α)
  | .transportError => .ok none
  | .response status parsed =>
    if status < 200 ∨ 300 ≤ status then .ok none
    else
      match parsed with
      | some v => .ok (some v)
      | none => .error "JSONDecodeError"

/-- Source: `fetch_irrigation_json` — the same body as `fetch_json`, against
the lk_irrigation base URL. -/
def fetch_irrigation_json {α : Type} : HttpOutcome α → Except String (Option α)
  | .transportError => .ok none
  | .response status parsed =>
    if status < 200 ∨ 300 ≤ status then .ok none
    else
      match parsed with
      | some v => .ok (some v)
      | none => .error "JSONDecodeError"

/-! ## Spec-side definitions used by the claim statements -/

/-- Spec-side restatement of the §4.5 cascade, with thresholds living in
`ℚ ∪ {+∞}` so that "an unset threshold defaults to +infinity" is literal. -/
def specAlertStatus (level : ℚ) (alert minor major : WithTop ℚ) : String :=
  if major ≤ (level : WithTop ℚ) then "MAJOR"
  else if minor ≤ (level : WithTop ℚ) then "MINOR"
  else if alert ≤ (level : WithTop ℚ) then "ALERT"
  else "NORMAL"

/-- An optional threshold as an extended rational: an absent key is `+∞`. -/
def toExtThreshold (t : Option ℚ) : WithTop ℚ := t.elim ⊤ (fun q => (q : WithTop ℚ))

/-- ASCII uppercase test (code points 65–90). -/
def isUpperAscii (c : Char) : Bool := 65 ≤ c.toNat && c.toNat ≤ 90

/-- Sorted in descending `pyStrLe` order. -/
def DescSorted : List String → Prop := List.Pairwise (fun a b => pyStrLe b a = true)

/-- The key/value pair `build_station_data` produces for one static station:
everything the merge can observe of the DMC static feed. -/
def staticKeyedEntry (s : StaticStation) : String × StationStaticData :=
  (normalize_station_name (s.name.getD ""),
    { lat_lng := s.lat_lng.getD (0, 0),
      river_name := s.river_name.getD "",
      alert_level := s.alert_level.getD 0,
      minor_flood_level := s.minor_flood_level.getD 0,
      major_flood_level := s.major_flood_level.getD 0 })

/-- Claim C7's reading of the fresher-readings join: both the keys and the
lookup pass through the Normalizer. -/
def build_irrigation_levels_normalized (irr : List (String × IrrLatestEntry)) :
    List (String × IrrLatestEntry) :=
  irr.map (fun p => (normalize_station_name p.1, p.2))

/-- Claim C7's reading of the irrigation static join: keyed by normalized
station name. -/
def build_irrigation_station_data_normalized (irrigation_static : List IrrStaticStation) :
    List (String × StationStaticData) :=
  irrigation_static.foldl
    (fun d s =>
      (normalize_station_name (s.name.getD ""),
        ({ lat_lng := s.lat_lng.getD (0, 0),
           river_name := s.river_name.getD "",
           alert_level := s.alert_level_m.getD 0,
           minor_flood_level := s.minor_flood_level_m.getD 0,
           major_flood_level := s.major_flood_level_m.getD 0 } : StationStaticData)) :: d) []

/-- `mergedLevelTimestamp` as claim C7 describes it: the fresher-feed lookup
key is the normalized primary station name. -/
def mergedLevelTimestampNormalized (dmc_timestamp : String)
    (irrigation_levels : List (String × IrrLatestEntry)) (item : DmcItem) : Option ℚ × String :=
  match dictGet irrigation_levels (normalize_station_name (item.gauging_station_name.getD "")) with
  | some d =>
    if d.water_level.isSome then (d.water_level, d.timestamp)
    else (item.current_water_level, dmc_timestamp)
  | none => (item.current_water_level, dmc_timestamp)

/-- `mergedStatic` as claim C7 describes it: both static lookups keyed by the
normalized primary station name. -/
def mergedStaticNormalized (station_data irrigation_station_data : List (String × StationStaticData))
    (item : DmcItem) : StationStaticData :=
  let normalized_name := normalize_station_name (item.gauging_station_name.getD "")
  let dmc_static := dictGet station_data normalized_name
  match dictGet irrigation_station_data normalized_name with
  | some irr_static =>
    { lat_lng := irr_static.lat_lng,
      river_name := if irr_static.river_name ≠ "" then irr_static.river_name
                    else (dmc_static.map (fun s => s.river_name)).getD "",
      alert_level := irr_static.alert_level,
      minor_flood_level := irr_static.minor_flood_level,
      major_flood_level := irr_static.major_flood_level }
  | none =>
    { lat_lng := (dmc_static.map (fun s => s.lat_lng)).getD (0, 0),
      river_name := (dmc_static.map (fun s => s.river_name)).getD "",
      alert_level := (dmc_static.map (fun s => s.alert_level)).getD 0,
      minor_flood_level := (dmc_static.map (fun s => s.minor_flood_level)).getD 0,
      major_flood_level := (dmc_static.map (fun s => s.major_flood_level)).getD 0 }

/-- The loop body as claim C7 describes it: every cross-feed lookup keyed by
the normalized station name. -/
def mergeItemNormalizedJoins (dmc_timestamp : String)
    (irrigation_levels : List (String × IrrLatestEntry))
    (station_data irrigation_station_data : List (String × StationStaticData))
    (item : DmcItem) : WaterLevelRecord :=
  let lt := mergedLevelTimestampNormalized dmc_timestamp irrigation_levels item
  let st := mergedStaticNormalized station_data irrigation_station_data item
  { station_name := item.gauging_station_name.getD ""
    river_name := st.river_name
    river_basin_name := ""
    lat_lng := st.lat_lng
    water_level := lt.1
    previous_water_level := item.previous_water_level
    alert_level := st.alert_level
    minor_flood_level := st.minor_flood_level
    major_flood_level := st.major_flood_level
    alert_status := mergedAlertStatus lt.1 st.alert_level st.minor_flood_level
      st.major_flood_level (item.remarks.getD "")
    flood_score := mergedFloodScore lt.1 st.alert_level st.major_flood_level
    rising_or_falling := item.rising_or_falling.getD ""
    rainfall_mm := item.rainfall_mm.getD 0
    remarks := item.remarks.getD ""
    timestamp := lt.2 }

/-- The merge engine exactly as claim C7 states it: every cross-feed match of
a primary-feed station keyed by its normalized canonical name. -/
def get_latest_water_levels_normalized_joins (filename : Option String)
    (data : Option (List DmcItem)) (irrigation_levels : List (String × IrrLatestEntry))
    (static_stations : List StaticStation)
    (irrigation_static : List IrrStaticStation) : List WaterLevelRecord :=
  match filename with
  | none => []
  | some fname =>
    match data with
    | none => []
    | some d_list =>
      d_list.map (mergeItemNormalizedJoins (parse_timestamp_from_filename fname)
        (build_irrigation_levels_normalized irrigation_levels)
        (build_station_data static_stations)
        (build_irrigation_station_data_normalized irrigation_static))

/-- Counterexample input for C3: a primary-feed item with no water level but
flood-keyword remarks. -/
def c3Item : DmcItem :=
  { gauging_station_name := some "Hanwella", current_water_level := none,
    previous_water_level := none, rising_or_falling := none, rainfall_mm := none,
    remarks := some "Major Flood level rising" }

/-- Counterexample input for C4: no explicit trend, current 3 > previous 2. -/
def c4Item : DmcItem :=
  { gauging_station_name := some "Hanwella", current_water_level := some 3,
    previous_water_level := some 2, rising_or_falling := none, rainfall_mm := none,
    remarks := none }

/-- Counterexample input for C7: an irrigation static station whose raw
spelling ("Kitulgala") differs from the primary feed's ("Kithulgala") but
normalizes identically. -/
def c7IrrStatic : IrrStaticStation :=
  { name := some "Kitulgala", lat_lng := some (7, 80), river_name := some "Kelani",
    alert_level_m := some 1, minor_flood_level_m := some 2, major_flood_level_m := some 3 }

/-- Counterexample input for C7: the primary-feed spelling. -/
def c7Item : DmcItem :=
  { gauging_station_name := some "Kithulgala", current_water_level := none,
    previous_water_level := none, rising_or_falling := none, rainfall_mm := none,
    remarks := none }

/-- Witness input for C7 (amended): a DMC static station under the live-feed
spelling. -/
def c7StaticRaw : StaticStation :=
  { name := some "Kithulgala", lat_lng := some (7, 80), river_name := some "Kelani",
    alert_level := some 1, minor_flood_level := some 2, major_flood_level := some 3 }

/-- Witness input for C7 (amended): the same station under the static-feed
spelling; both normalize to the same key. -/
def c7StaticAlias : StaticStation :=
  { name := some "Kitulgala", lat_lng := some (7, 80), river_name := some "Kelani",
    alert_level := some 1, minor_flood_level := some 2, major_flood_level := some 3 }

/-- Witness input for C10: an ordinary primary-feed item. -/
def c10Item : DmcItem :=
  { gauging_station_name := some "Hanwella", current_water_level := some 1,
    previous_water_level := none, rising_or_falling := none, rainfall_mm := none,
    remarks := none }

/-! ## Helper lemmas -/

theorem crossesThreshold_iff (level : ℚ) (t : Option ℚ) :
    crossesThreshold level t = true ↔ toExtThreshold t ≤ (level : WithTop ℚ) := by
  cases t with
  | none => simp [crossesThreshold, toExtThreshold]
  | some q => simp [crossesThreshold, toExtThreshold]

theorem isUpperAscii_iff {c : Char} : isUpperAscii c = true ↔ 65 ≤ c.toNat ∧ c.toNat ≤ 90 := by
  simp [isUpperAscii]

theorem charOfNat_toNat {n : Nat} (h : n < 55296) : (Char.ofNat n).toNat = n := by
  have hv : n.isValidChar := Or.inl h
  simp only [Char.ofNat, hv, dif_pos, Char.ofNatAux, Char.toNat]
  rfl

theorem char_eq_of_toNat_eq {a b : Char} (h : a.toNat = b.toNat) : a = b := by
  apply Char.ext
  apply UInt32.ext
  exact h

theorem toNat_toLower (c : Char) :
    (Char.toLower c).toNat = if 65 ≤ c.toNat ∧ c.toNat ≤ 90 then c.toNat + 32 else c.toNat := by
  simp only [Char.toLower, ge_iff_le]
  split
  · rw [charOfNat_toNat (by omega)]
  · rfl

theorem toLower_not_upper (c : Char) : isUpperAscii (Char.toLower c) = false := by
  have h := toNat_toLower c
  apply Bool.eq_false_iff.mpr
  intro ht
  rw [isUpperAscii_iff, h] at ht
  by_cases hc : 65 ≤ c.toNat ∧ c.toNat ≤ 90
  · rw [if_pos hc] at ht; omega
  · rw [if_neg hc] at ht; exact hc ht

theorem toLower_eq_self_of_not_upper {c : Char} (h : isUpperAscii c = false) :
    Char.toLower c = c := by
  simp only [Char.toLower, ge_iff_le]
  rw [if_neg]
  intro hc
  exact Bool.eq_false_iff.mp h (isUpperAscii_iff.mpr hc)

theorem toLower_idem (c : Char) : Char.toLower (Char.toLower c) = Char.toLower c :=
  toLower_eq_self_of_not_upper (toLower_not_upper c)

theorem foldName_no_upper (x : String) : ∀ c ∈ (foldName x).data, isUpperAscii c = false := by
  intro c hc
  simp only [foldName, pyLower] at hc
  have hc2 : c ∈ (x.data.map Char.toLower) := List.mem_of_mem_filter hc
  obtain ⟨y, _, rfl⟩ := List.mem_map.mp hc2
  exact toLower_not_upper y

theorem foldName_idem (s : String) : foldName (foldName s) = foldName s := by
  simp only [foldName, pyLower]
  congr 1
  have hmap : ((s.data.map Char.toLower).filter keepChar).map Char.toLower
      = (s.data.map Char.toLower).filter keepChar := by
    have h1 : ∀ c ∈ (s.data.map Char.toLower).filter keepChar, Char.toLower c = c := by
      intro c hc
      obtain ⟨y, _, rfl⟩ := List.mem_map.mp (List.mem_of_mem_filter hc)
      exact toLower_idem y
    calc ((s.data.map Char.toLower).filter keepChar).map Char.toLower
        = ((s.data.map Char.toLower).filter keepChar).map id := List.map_congr_left h1
      _ = (s.data.map Char.toLower).filter keepChar := List.map_id _
  rw [hmap, List.filter_filter]
  congr 1
  funext a
  exact Bool.and_self _

theorem dictGet_eq_none {α : Type} (d : List (String × α)) (k : String)
    (h : ∀ p ∈ d, p.1 ≠ k) : dictGet d k = none := by
  induction d with
  | nil => rfl
  | cons p rest ih =>
    simp only [dictGet]
    rw [if_neg (h p (List.mem_cons_self p rest))]
    exact ih (fun q hq => h q (List.mem_cons_of_mem p hq))

/-- Every alias-table key contains an uppercase letter, while a folded name
never does, so the alias lookup of an already-normalized name misses. -/
theorem alias_miss_foldName (x : String) :
    dictGet STATION_NAME_MAP (foldName x) = none := by
  apply dictGet_eq_none
  intro p hp heq
  have hup : p.1.data.any isUpperAscii = true := by
    have hall : STATION_NAME_MAP.all (fun q => q.1.data.any isUpperAscii) = true := by decide
    exact (List.all_eq_true.mp hall) p hp
  obtain ⟨c, hc, hcu⟩ := List.any_eq_true.mp hup
  rw [heq] at hc
  rw [foldName_no_upper x c hc] at hcu
  exact Bool.false_ne_true hcu

theorem normalize_station_name_idem (x : String) :
    normalize_station_name (normalize_station_name x) = normalize_station_name x := by
  unfold normalize_station_name
  rw [alias_miss_foldName]
  exact foldName_idem _

theorem ltChars_irrefl : ∀ a, ltChars a a = false := by
  intro a
  induction a with
  | nil => rfl
  | cons x xs ih => simp [ltChars, ih]

theorem ltChars_asymm : ∀ a b, ltChars a b = true → ltChars b a = false := by
  intro a
  induction a with
  | nil =>
    intro b hb
    cases b with
    | nil => simp [ltChars] at hb
    | cons y ys => rfl
  | cons x xs ih =>
    intro b hb
    cases b with
    | nil => simp [ltChars] at hb
    | cons y ys =>
      simp only [ltChars] at hb ⊢
      by_cases h1 : x.toNat < y.toNat
      · rw [if_neg (by omega : ¬ y.toNat < x.toNat), if_pos h1]
      · by_cases h2 : y.toNat < x.toNat
        · rw [if_neg h1, if_pos h2] at hb
          simp at hb
        · rw [if_neg h1, if_neg h2] at hb
          rw [if_neg h2, if_neg h1]
          exact ih ys hb

theorem ltChars_connex : ∀ a b, ltChars a b = false → ltChars b a = false → a = b := by
  intro a
  induction a with
  | nil =>
    intro b h1 h2
    cases b with
    | nil => rfl
    | cons y ys => simp [ltChars] at h1
  | cons x xs ih =>
    intro b h1 h2
    cases b with
    | nil => simp [ltChars] at h2
    | cons y ys =>
      simp only [ltChars] at h1 h2
      by_cases hx : x.toNat < y.toNat
      · rw [if_pos hx] at h1
        simp at h1
      · by_cases hy : y.toNat < x.toNat
        · rw [if_pos hy] at h2
          simp at h2
        · rw [if_neg hx, if_neg hy] at h1
          rw [if_neg hy, if_neg hx] at h2
          rw [char_eq_of_toNat_eq (by omega : x.toNat = y.toNat), ih ys h1 h2]

theorem ltChars_trans : ∀ a b c, ltChars a b = true → ltChars b c = true →
    ltChars a c = true := by
  intro a
  induction a with
  | nil =>
    intro b c h1 h2
    cases c with
    | nil => cases b <;> simp [ltChars] at h2
    | cons z zs => rfl
  | cons x xs ih =>
    intro b c h1 h2
    cases b with
    | nil => simp [ltChars] at h1
    | cons y ys =>
      cases c with
      | nil => simp [ltChars] at h2
      | cons z zs =>
        simp only [ltChars] at h1 h2 ⊢
        by_cases hxy : x.toNat < y.toNat
        · by_cases hyz : y.toNat < z.toNat
          · rw [if_pos (by omega : x.toNat < z.toNat)]
          · by_cases hzy : z.toNat < y.toNat
            · rw [if_neg hyz, if_pos hzy] at h2
              simp at h2
            · rw [if_pos (by omega : x.toNat < z.toNat)]
        · by_cases hyx : y.toNat < x.toNat
          · rw [if_neg hxy, if_pos hyx] at h1
            simp at h1
          · rw [if_neg hxy, if_neg hyx] at h1
            by_cases hyz : y.toNat < z.toNat
            · rw [if_pos (by omega : x.toNat < z.toNat)]
            · by_cases hzy : z.toNat < y.toNat
              · rw [if_neg hyz, if_pos hzy] at h2
                simp at h2
              · rw [if_neg hyz, if_neg hzy] at h2
                rw [if_neg (by omega : ¬ x.toNat < z.toNat),
                  if_neg (by omega : ¬ z.toNat < x.toNat)]
                exact ih ys zs h1 h2

theorem pyStrLe_eq_true_iff {a b : String} :
    pyStrLe a b = true ↔ ltChars b.data a.data = false := by
  simp [pyStrLe, pyStrLt]

theorem pyStrLe_refl (a : String) : pyStrLe a a = true := by
  rw [pyStrLe_eq_true_iff]
  exact ltChars_irrefl _

theorem pyStrLe_total (a b : String) : pyStrLe a b = true ∨ pyStrLe b a = true := by
  by_cases h : ltChars b.data a.data = true
  · right
    rw [pyStrLe_eq_true_iff]
    exact ltChars_asymm _ _ h
  · left
    rw [pyStrLe_eq_true_iff]
    exact Bool.eq_false_iff.mpr h

theorem pyStrLe_trans {a b c : String} (h1 : pyStrLe a b = true) (h2 : pyStrLe b c = true) :
    pyStrLe a c = true := by
  rw [pyStrLe_eq_true_iff] at h1 h2 ⊢
  by_contra hca
  rw [Bool.not_eq_false] at hca
  by_cases hbc : ltChars b.data c.data = true
  · rw [ltChars_trans _ _ _ hbc hca] at h1
    exact Bool.noConfusion h1
  · have hb : b.data = c.data :=
      ltChars_connex _ _ (Bool.eq_false_iff.mpr hbc) h2
    rw [← hb] at hca
    rw [hca] at h1
    exact Bool.noConfusion h1

theorem mem_insertDesc (x : String) : ∀ (l : List String) (a : String),
    a ∈ insertDesc x l ↔ a = x ∨ a ∈ l := by
  intro l
  induction l with
  | nil => intro a; simp [insertDesc]
  | cons y ys ih =>
    intro a
    simp only [insertDesc]
    split
    · simp [List.mem_cons]
    · simp only [List.mem_cons, ih a]
      tauto

theorem insertDesc_sorted (x : String) : ∀ (l : List String), DescSorted l →
    DescSorted (insertDesc x l) := by
  intro l
  induction l with
  | nil =>
    intro _
    rw [DescSorted, insertDesc]
    exact List.pairwise_singleton _ x
  | cons y ys ih =>
    intro h
    rw [DescSorted, List.pairwise_cons] at h
    obtain ⟨hy, hys⟩ := h
    rw [insertDesc]
    split
    · rename_i hle
      rw [DescSorted, List.pairwise_cons]
      refine ⟨fun b hb => ?_, List.pairwise_cons.mpr ⟨hy, hys⟩⟩
      rcases List.mem_cons.mp hb with rfl | hb2
      · exact hle
      · exact pyStrLe_trans (hy b hb2) hle
    · rename_i hle
      rw [DescSorted, List.pairwise_cons]
      refine ⟨fun b hb => ?_, ih hys⟩
      rcases (mem_insertDesc x ys b).mp hb with rfl | hb2
      · rcases pyStrLe_total b y with h | h
        · exact h
        · exact absurd h hle
      · exact hy b hb2

theorem sortDesc_sorted : ∀ l : List String, DescSorted (sortDesc l) := by
  intro l
  induction l with
  | nil => rw [DescSorted, sortDesc]; exact List.Pairwise.nil
  | cons x xs ih => exact insertDesc_sorted x _ ih

theorem mem_sortDesc {a : String} : ∀ {l : List String}, a ∈ sortDesc l ↔ a ∈ l := by
  intro l
  induction l with
  | nil => simp [sortDesc]
  | cons x xs ih =>
    rw [sortDesc, mem_insertDesc, List.mem_cons, ih]

theorem mergedAlertStatus_no_data (a mi ma : ℚ) (remarks : String)
    (h1 : strContains remarks "Major Flood" = false)
    (h2 : strContains remarks "Minor Flood" = false)
    (h3 : strContains remarks "Alert" = false) :
    mergedAlertStatus none a mi ma remarks = "NO_DATA" := by
  simp [mergedAlertStatus, h1, h2, h3]

theorem get_river_basins_of_all_empty (levels : List WaterLevelRecord)
    (h : ∀ r ∈ levels, r.river_basin_name = "") : get_river_basins levels = [] := by
  unfold get_river_basins
  split
  · rfl
  · have haux : ∀ (l : List WaterLevelRecord), (∀ r ∈ l, r.river_basin_name = "") →
        ∀ acc : List BasinEntry,
        l.foldl (fun basins level =>
          let basin_name := level.river_basin_name
          if basin_name ≠ "" ∧ basins.all (fun b => b.name ≠ basin_name) then
            basins ++ [{ name := basin_name, code := extract_basin_code basin_name }]
          else basins) acc = acc := by
      intro l
      induction l with
      | nil => intro _ acc; rfl
      | cons x xs ih =>
        intro hx acc
        have hx1 : x.river_basin_name = "" := hx x (List.mem_cons_self x xs)
        simp only [List.foldl_cons]
        rw [if_neg (by simp [hx1])]
        exact ih (fun r hr => hx r (List.mem_cons_of_mem x hr)) acc
    exact haux levels h []

theorem build_station_data_eq_foldl (ss : List StaticStation) :
    build_station_data ss = (ss.map staticKeyedEntry).foldl (fun d p => p :: d) [] := by
  unfold build_station_data staticKeyedEntry
  rw [List.foldl_map]

theorem mergeItem_congr_lookups (ts : String) (irr irr' : List (String × IrrLatestEntry))
    (sd isd isd' : List (String × StationStaticData)) (item : DmcItem)
    (h1 : dictGet irr (item.gauging_station_name.getD "")
        = dictGet irr' (item.gauging_station_name.getD ""))
    (h2 : dictGet isd (item.gauging_station_name.getD "")
        = dictGet isd' (item.gauging_station_name.getD "")) :
    mergeItem ts irr sd isd item = mergeItem ts irr' sd isd' item := by
  simp only [mergeItem, mergedLevelTimestamp, mergedStatic, h1, h2]

/-! ## Claim C1 -/

/-- Claim C1: `calculate_alert_status` returns NO_DATA when the level is
absent; otherwise it returns MAJOR when level ≥ major, else MINOR when
level ≥ minor, else ALERT when level ≥ alert, else NORMAL, where an absent
threshold key counts as +infinity and so can never be crossed; and at a tie
level = major (with alert ≤ minor ≤ major) the result is MAJOR regardless of
the minor and alert values. -/
theorem calculate_alert_status_correct :
    (∀ station, calculate_alert_status none station = "NO_DATA") ∧
    (∀ level station,
       calculate_alert_status (some level) station =
         specAlertStatus level (toExtThreshold station.alert_level)
           (toExtThreshold station.minor_flood_level)
           (toExtThreshold station.major_flood_level)) ∧
    (∀ alert minor major : ℚ, alert ≤ minor → minor ≤ major →
       calculate_alert_status (some major) ⟨some alert, some minor, some major⟩ = "MAJOR") := by
  refine ⟨fun station => rfl, fun level station => ?_, fun alert minor major h1 h2 => ?_⟩
  · simp only [calculate_alert_status, specAlertStatus]
    by_cases hM : crossesThreshold level station.major_flood_level = true
    · rw [if_pos hM, if_pos ((crossesThreshold_iff _ _).mp hM)]
    · rw [if_neg hM, if_neg (fun hc => hM ((crossesThreshold_iff _ _).mpr hc))]
      by_cases hm : crossesThreshold level station.minor_flood_level = true
      · rw [if_pos hm, if_pos ((crossesThreshold_iff _ _).mp hm)]
      · rw [if_neg hm, if_neg (fun hc => hm ((crossesThreshold_iff _ _).mpr hc))]
        by_cases ha : crossesThreshold level station.alert_level = true
        · rw [if_pos ha, if_pos ((crossesThreshold_iff _ _).mp ha)]
        · rw [if_neg ha, if_neg (fun hc => ha ((crossesThreshold_iff _ _).mpr hc))]
  · simp [calculate_alert_status, crossesThreshold]

/-- Witness for C1 at the tie alert=1 ≤ minor=2 ≤ major=3, level=major. -/
theorem calculate_alert_status_correct_witness :
    calculate_alert_status (some 3) ⟨some 1, some 2, some 3⟩ = "MAJOR" :=
  calculate_alert_status_correct.2.2 1 2 3 (by norm_num) (by norm_num)

/-! ## Claim C2 -/

/-- Claim C2: `calculate_flood_score` returns None when the level is absent or
when major ≤ alert, and otherwise exactly (level − alert) / (major − alert),
unclamped; in particular, for major > alert the score at level = alert is
exactly 0 and at level = major exactly 1. -/
theorem calculate_flood_score_correct :
    (∀ station, calculate_flood_score none station = none) ∧
    (∀ level alert major : ℚ, major ≤ alert →
       calculate_flood_score (some level) ⟨some alert, some major⟩ = none) ∧
    (∀ level alert major : ℚ, alert < major →
       calculate_flood_score (some level) ⟨some alert, some major⟩ =
         some ((level - alert) / (major - alert))) ∧
    (∀ alert major : ℚ, alert < major →
       calculate_flood_score (some alert) ⟨some alert, some major⟩ = some 0 ∧
       calculate_flood_score (some major) ⟨some alert, some major⟩ = some 1) := by
  refine ⟨fun station => rfl, fun level alert major h => ?_, fun level alert major h => ?_,
    fun alert major h => ⟨?_, ?_⟩⟩
  · simp [calculate_flood_score, h]
  · simp [calculate_flood_score, not_le.mpr h]
  · simp [calculate_flood_score, not_le.mpr h]
  · simp [calculate_flood_score, not_le.mpr h, div_self (sub_ne_zero.mpr h.ne')]

/-- Witness for C2 with alert=1 < major=3. -/
theorem calculate_flood_score_correct_witness :
    calculate_flood_score (some 1) ⟨some 1, some 3⟩ = some 0 ∧
    calculate_flood_score (some 3) ⟨some 1, some 3⟩ = some 1 :=
  calculate_flood_score_correct.2.2.2 1 3 (by norm_num)

/-! ## Claim C3 -/

/-- Claim C3 counterexample: the claim "if the merged water_level is absent
then alert_status is NO_DATA, unconditionally — regardless of remarks" is
false. With no water level, empty static feeds (so `alert_level = 0`) and
remarks containing "Major Flood", the remarks heuristic fires and the record
gets alert_status MAJOR, not NO_DATA. -/
theorem c3_counterexample :
    ¬ (∀ (fn : Option String) (data : Option (List DmcItem)) irr ss is,
        ∀ r ∈ get_latest_water_levels fn data irr ss is,
        r.water_level = none → r.alert_status = "NO_DATA") := by
  intro h
  have h2 := h (some "2025-12-01-12-30-water-level.json") (some [c3Item]) [] [] []
    (mergeItem (parse_timestamp_from_filename "2025-12-01-12-30-water-level.json") []
      (build_station_data []) (build_irrigation_station_data []) c3Item)
    (List.mem_singleton.mpr rfl) (by decide)
  exact absurd h2 (by decide)

/-- Claim C3 (amended): every record produced by `get_latest_water_levels`
whose merged water_level is absent has alert_status NO_DATA, PROVIDED its
remarks contain none of the substrings "Major Flood", "Minor Flood", "Alert"
(otherwise the remarks heuristic assigns the corresponding status). -/
theorem c3_amended : ∀ (fn : Option String) (data : Option (List DmcItem)) irr ss is,
    ∀ r ∈ get_latest_water_levels fn data irr ss is,
    r.water_level = none →
    strContains r.remarks "Major Flood" = false →
    strContains r.remarks "Minor Flood" = false →
    strContains r.remarks "Alert" = false →
    r.alert_status = "NO_DATA" := by
  intro fn data irr ss is r hr h0 h1 h2 h3
  rcases fn with _ | fname
  · simp [get_latest_water_levels] at hr
  rcases data with _ | d_list
  · simp [get_latest_water_levels] at hr
  simp only [get_latest_water_levels, List.mem_map] at hr
  obtain ⟨item, hmem, rfl⟩ := hr
  simp only [mergeItem] at h0 h1 h2 h3 ⊢
  rw [h0]
  exact mergedAlertStatus_no_data _ _ _ _ h1 h2 h3

/-- Witness for C3 (amended): absent level and empty remarks give NO_DATA. -/
theorem c3_amended_witness :
    (mergeItem (parse_timestamp_from_filename "f-water-level.json") []
      (build_station_data []) (build_irrigation_station_data [])
      { gauging_station_name := some "S", current_water_level := none,
        previous_water_level := none, rising_or_falling := none, rainfall_mm := none,
        remarks := none }).alert_status = "NO_DATA" :=
  c3_amended (some "f-water-level.json")
    (some [{ gauging_station_name := some "S", current_water_level := none,
             previous_water_level := none, rising_or_falling := none, rainfall_mm := none,
             remarks := none }]) [] [] [] _
    (List.mem_singleton.mpr rfl) (by decide) (by decide) (by decide) (by decide)

/-! ## Claim C4 -/

/-- Claim C4 counterexample: the merge engine does NOT derive a trend from
current/previous levels. With no explicit trend, current = 3 > previous = 2,
the merged record's rising_or_falling is the empty string, not "rising" or
"Rising". -/
theorem c4_counterexample :
    ¬ (∀ (fn : String) (irr : List (String × IrrLatestEntry)) ss is (item : DmcItem)
        (c p : ℚ),
        item.rising_or_falling = none →
        item.current_water_level = some c →
        item.previous_water_level = some p →
        p < c →
        ∀ r ∈ get_latest_water_levels (some fn) (some [item]) irr ss is,
          r.rising_or_falling = "rising" ∨ r.rising_or_falling = "Rising") := by
  intro h
  have h2 := h "2025-12-01-12-30-water-level.json" [] [] [] c4Item 3 2 rfl rfl rfl
    (by norm_num)
    (mergeItem (parse_timestamp_from_filename "2025-12-01-12-30-water-level.json") []
      (build_station_data []) (build_irrigation_station_data []) c4Item)
    (List.mem_singleton.mpr rfl)
  rcases h2 with h2 | h2 <;> exact absurd h2 (by decide)

/-- Claim C4 (amended): for every record the merge engine produces,
rising_or_falling is exactly the primary feed's explicit trend string
(defaulting to the empty string when absent); it is never derived from the
current/previous levels nor from the secondary feed (the right-hand side
depends on neither). -/
theorem c4_amended : ∀ (fname : String) (d_list : List DmcItem) irr ss is,
    (get_latest_water_levels (some fname) (some d_list) irr ss is).map
        (fun r => r.rising_or_falling)
      = d_list.map (fun item => item.rising_or_falling.getD "") := by
  intro fname d_list irr ss is
  simp only [get_latest_water_levels, List.map_map]
  apply List.map_congr_left
  intro item _
  rfl

/-! ## Claim C5 -/

/-- Claim C5: freshest-wins merge. For every primary-feed item, if the
secondary fresher-readings feed has a non-null water level under the exact
(raw) station name, the merged record carries that level and the secondary
feed's own timestamp; otherwise it carries the primary feed's level and the
timestamp parsed from the primary artifact's filename. -/
theorem c5_freshest_wins : ∀ (fname : String) (d_list : List DmcItem) irr ss is,
    (get_latest_water_levels (some fname) (some d_list) irr ss is).map
        (fun r => (r.water_level, r.timestamp))
      = d_list.map (fun item =>
          match dictGet irr (item.gauging_station_name.getD "") with
          | some e =>
            match e.water_level with
            | some w => (some w, e.timestamp)
            | none => (item.current_water_level, parse_timestamp_from_filename fname)
          | none => (item.current_water_level, parse_timestamp_from_filename fname)) := by
  intro fname d_list irr ss is
  simp only [get_latest_water_levels, List.map_map]
  apply List.map_congr_left
  intro item _
  simp only [Function.comp_apply, mergeItem, mergedLevelTimestamp]
  rcases dictGet irr (item.gauging_station_name.getD "") with _ | e
  · rfl
  · rcases he : e.water_level with _ | w <;> simp [he]

/-! ## Claim C6 -/

/-- Claim C6 counterexample: "Kithulgala" and "kithulgala" differ only in
letter case (they fold to the same string), yet they normalize differently,
because only the first spelling is an alias-table key (it is rewritten to
"Kitulgala"). So `normalize_station_name` is NOT case-insensitive on
alias-table keys. -/
theorem normalize_c6_counterexample :
    ¬ (∀ x y : String, foldName x = foldName y →
        normalize_station_name x = normalize_station_name y) := by
  intro h
  have h2 := h "Kithulgala" "kithulgala" (by decide)
  exact absurd h2 (by decide)

/-- Claim C6 (amended): `normalize_station_name` is idempotent for every
input; and for inputs outside the alias table it is case, punctuation and
whitespace insensitive — two names with the same case/apostrophe/paren/space
folding normalize identically; in particular normalize("N' Street") =
normalize("n street"). -/
theorem normalize_c6_amended :
    (∀ x, normalize_station_name (normalize_station_name x) = normalize_station_name x) ∧
    (∀ x y : String, dictGet STATION_NAME_MAP x = none → dictGet STATION_NAME_MAP y = none →
       foldName x = foldName y → normalize_station_name x = normalize_station_name y) ∧
    normalize_station_name ("N" ++ String.mk [squote] ++ " Street") =
      normalize_station_name "n street" := by
  refine ⟨normalize_station_name_idem, fun x y hx hy hf => ?_, by decide⟩
  unfold normalize_station_name
  rw [hx, hy]
  exact hf

/-- Witness for C6 (amended) at the non-alias pair "Hanwella" / "HANWELLA". -/
theorem normalize_c6_amended_witness :
    normalize_station_name "Hanwella" = normalize_station_name "HANWELLA" :=
  normalize_c6_amended.2.1 "Hanwella" "HANWELLA" (by decide) (by decide) (by decide)

/-! ## Claim C7 -/

/-- Claim C7 counterexample: the merge engine does NOT join every feed on
normalized names. The irrigation static feed holds "Kitulgala" while the
primary feed says "Kithulgala"; the two normalize to the same key, so the
all-normalized reading of the claim would join them, but the code joins the
irrigation feeds on the raw spelling and misses, leaving zero thresholds. -/
theorem c7_counterexample :
    ¬ (∀ (fn : Option String) (data : Option (List DmcItem)) irr ss is,
        get_latest_water_levels fn data irr ss is
          = get_latest_water_levels_normalized_joins fn data irr ss is) := by
  intro h
  have h2 := h (some "2025-12-01-12-30-water-level.json") (some [c7Item]) [] [] [c7IrrStatic]
  exact absurd h2 (by decide)

/-- Claim C7 (amended): only the DMC static-thresholds join goes through the
Normalizer — the merge output depends on the DMC static feed solely through
normalized-name-keyed entries — while the fresher-readings feed and the
irrigation static feed are joined on the RAW primary station name: the output
depends on them solely through lookups at the raw name. -/
theorem c7_amended :
    (∀ (fn : Option String) (data : Option (List DmcItem)) irr is ss ss',
       ss.map staticKeyedEntry = ss'.map staticKeyedEntry →
       get_latest_water_levels fn data irr ss is
         = get_latest_water_levels fn data irr ss' is) ∧
    (∀ (fn : String) (d_list : List DmcItem) ss is irr irr',
       (∀ item ∈ d_list, dictGet irr (item.gauging_station_name.getD "")
          = dictGet irr' (item.gauging_station_name.getD "")) →
       get_latest_water_levels (some fn) (some d_list) irr ss is
         = get_latest_water_levels (some fn) (some d_list) irr' ss is) ∧
    (∀ (fn : String) (d_list : List DmcItem) ss irr is is',
       (∀ item ∈ d_list,
          dictGet (build_irrigation_station_data is) (item.gauging_station_name.getD "")
            = dictGet (build_irrigation_station_data is') (item.gauging_station_name.getD "")) →
       get_latest_water_levels (some fn) (some d_list) irr ss is
         = get_latest_water_levels (some fn) (some d_list) irr ss is') := by
  refine ⟨fun fn data irr is ss ss' h => ?_, fun fn d_list ss is irr irr' h => ?_,
    fun fn d_list ss irr is is' h => ?_⟩
  · rcases fn with _ | fname
    · rfl
    rcases data with _ | d_list
    · rfl
    have hsd : build_station_data ss = build_station_data ss' := by
      rw [build_station_data_eq_foldl, build_station_data_eq_foldl, h]
    simp only [get_latest_water_levels, hsd]
  · simp only [get_latest_water_levels]
    exact List.map_congr_left (fun item hmem =>
      mergeItem_congr_lookups _ _ _ _ _ _ item (h item hmem) rfl)
  · simp only [get_latest_water_levels]
    exact List.map_congr_left (fun item hmem =>
      mergeItem_congr_lookups _ _ _ _ _ _ item rfl (h item hmem))

/-- Witness for C7 (amended): renaming the DMC static station from the
live-feed spelling to the static-feed spelling (same normalized key) leaves
the merge output unchanged; the other two parts applied at empty feeds. -/
theorem c7_amended_witness :
    get_latest_water_levels (some "f-water-level.json") (some [c7Item]) [] [c7StaticRaw] []
      = get_latest_water_levels (some "f-water-level.json") (some [c7Item]) []
          [c7StaticAlias] [] ∧
    get_latest_water_levels (some "f-water-level.json") (some []) [] [] []
      = get_latest_water_levels (some "f-water-level.json") (some [])
          [("S", { water_level := some 1, time_ut := 0, timestamp := "t" })] [] [] ∧
    get_latest_water_levels (some "f-water-level.json") (some []) [] [] []
      = get_latest_water_levels (some "f-water-level.json") (some []) [] [] [c7IrrStatic] :=
  ⟨c7_amended.1 (some "f-water-level.json") (some [c7Item]) [] [] [c7StaticRaw] [c7StaticAlias]
     (by decide),
   c7_amended.2.1 "f-water-level.json" [] [] [] []
     [("S", { water_level := some 1, time_ut := 0, timestamp := "t" })]
     (fun item hmem => absurd hmem (List.not_mem_nil item)),
   c7_amended.2.2 "f-water-level.json" [] [] [] [] [c7IrrStatic]
     (fun item hmem => absurd hmem (List.not_mem_nil item))⟩

/-! ## Claim C8 -/

/-- Claim C8 counterexample: `fetch_json` does not collapse every failure to
None. On a successful status whose body does not parse as JSON,
`response.json()` raises `json.JSONDecodeError`, which is not an
`httpx.HTTPError`, so the exception propagates to the caller. -/
theorem c8_counterexample :
    ¬ (∀ (o : HttpOutcome Unit),
        (∃ r, fetch_json o = Except.ok r) ∧ (∃ r, fetch_irrigation_json o = Except.ok r)) := by
  intro h
  obtain ⟨⟨r, hr⟩, _⟩ := h (.response 200 none)
  simp [fetch_json] at hr

/-- Claim C8 (amended): `fetch_json` and `fetch_irrigation_json` behave
identically; a transport failure or any non-2xx status (`raise_for_status`
raises `HTTPStatusError` for every non-success status, caught as an
`httpx.HTTPError`) yields None without an exception, and a parsed payload on
a 2xx status is returned as-is — but an unparseable payload on a 2xx status
propagates a JSON decode exception rather than yielding None. One request
outcome is consumed per call (no retry). -/
theorem c8_amended :
    (∀ (α : Type) (o : HttpOutcome α), fetch_irrigation_json o = fetch_json o) ∧
    (∀ (α : Type), fetch_json (α := α) .transportError = .ok none) ∧
    (∀ (α : Type) (status : Nat) (parsed : Option α), status < 200 ∨ 300 ≤ status →
       fetch_json (.response status parsed) = .ok none) ∧
    (∀ (α : Type) (status : Nat) (v : α), 200 ≤ status → status ≤ 299 →
       fetch_json (.response status (some v)) = .ok (some v)) ∧
    (∀ (α : Type) (status : Nat), 200 ≤ status → status ≤ 299 →
       fetch_json (.response status (none : Option α)) = .error "JSONDecodeError") := by
  refine ⟨fun α o => ?_, fun α => rfl, fun α status parsed h => ?_,
    fun α status v h1 h2 => ?_, fun α status h1 h2 => ?_⟩
  · rcases o with _ | ⟨status, parsed⟩ <;> rfl
  · simp [fetch_json, h]
  · simp [fetch_json]
    omega
  · simp [fetch_json]
    omega

/-- Witness for C8 (amended) at concrete outcomes, a redirect included. -/
theorem c8_amended_witness :
    fetch_irrigation_json (HttpOutcome.transportError (α := Unit)) = .ok none ∧
    fetch_json (HttpOutcome.response 500 (some ())) = .ok none ∧
    fetch_json (HttpOutcome.response 301 (some ())) = .ok none ∧
    fetch_json (HttpOutcome.response 200 (some ())) = .ok (some ()) ∧
    fetch_json (HttpOutcome.response 200 (none : Option Unit)) = .error "JSONDecodeError" :=
  ⟨(c8_amended.1 Unit .transportError).trans (c8_amended.2.1 Unit),
   c8_amended.2.2.1 Unit 500 (some ()) (by omega),
   c8_amended.2.2.1 Unit 301 (some ()) (by omega),
   c8_amended.2.2.2.1 Unit 200 () (by omega) (by omega),
   c8_amended.2.2.2.2 Unit 200 (by omega) (by omega)⟩

/-! ## Claim C9 -/

/-- Claim C9: the latest-artifact resolver keeps exactly the names ending in
"-water-level.json", sorts them lexicographically descending and returns the
first — equivalently it returns a matching entry that is lexicographically
greatest among all matching entries — and returns None when nothing matches,
while a None filename makes the merge engine yield the empty result set. -/
theorem c9_latest_filename : ∀ files : List String,
    ((files.filter (fun n => endswith n "-water-level.json")).isEmpty = true →
       get_latest_water_level_filename files = none) ∧
    (∀ f, get_latest_water_level_filename files = some f →
       f ∈ files ∧ endswith f "-water-level.json" = true ∧
       ∀ g ∈ files, endswith g "-water-level.json" = true → pyStrLe g f = true) ∧
    ((files.filter (fun n => endswith n "-water-level.json")).isEmpty = false →
       (get_latest_water_level_filename files).isSome = true) ∧
    (∀ (data : Option (List DmcItem)) irr ss is,
       get_latest_water_levels none data irr ss is = []) := by
  intro files
  refine ⟨fun h => ?_, fun f hf => ?_, fun h => ?_, fun data irr ss is => rfl⟩
  · unfold get_latest_water_level_filename
    rw [if_pos h]
  · unfold get_latest_water_level_filename at hf
    by_cases he : (files.filter (fun n => endswith n "-water-level.json")).isEmpty
    · rw [if_pos he] at hf
      cases hf
    · rw [if_neg he] at hf
      rcases hs : sortDesc (files.filter (fun n => endswith n "-water-level.json")) with
        _ | ⟨f0, rest⟩
      · rw [hs] at hf
        cases hf
      · rw [hs] at hf
        have hf0 : f0 = f := by
          simpa using hf
        subst hf0
        have hmemf : f0 ∈ files.filter (fun n => endswith n "-water-level.json") := by
          rw [← mem_sortDesc, hs]
          exact List.mem_cons_self f0 rest
        refine ⟨(List.mem_filter.mp hmemf).1, (List.mem_filter.mp hmemf).2, fun g hg hgs => ?_⟩
        have hgmem : g ∈ sortDesc (files.filter (fun n => endswith n "-water-level.json")) := by
          rw [mem_sortDesc]
          exact List.mem_filter.mpr ⟨hg, hgs⟩
        rw [hs] at hgmem
        rcases List.mem_cons.mp hgmem with rfl | hgrest
        · exact pyStrLe_refl g
        · have hsorted := sortDesc_sorted (files.filter (fun n => endswith n "-water-level.json"))
          rw [hs, DescSorted, List.pairwise_cons] at hsorted
          exact hsorted.1 g hgrest
  · unfold get_latest_water_level_filename
    rw [if_neg (by rw [h]; exact Bool.false_ne_true)]
    have hne : files.filter (fun n => endswith n "-water-level.json") ≠ [] := by
      intro hnil
      rw [hnil] at h
      cases h
    obtain ⟨x, hx⟩ := List.exists_mem_of_ne_nil _ hne
    have hx2 : x ∈ sortDesc (files.filter (fun n => endswith n "-water-level.json")) :=
      mem_sortDesc.mpr hx
    rcases hs : sortDesc (files.filter (fun n => endswith n "-water-level.json")) with
      _ | ⟨f0, rest⟩
    · rw [hs] at hx2
      cases hx2
    · rfl

/-- Witness for C9 at a concrete directory listing. -/
theorem c9_latest_filename_witness :
    "2024-01-02-12-00-water-level.json" ∈
      ["2024-01-01-00-00-water-level.json", "readme.md", "2024-01-02-12-00-water-level.json"] ∧
    pyStrLe "2024-01-01-00-00-water-level.json" "2024-01-02-12-00-water-level.json" = true ∧
    get_latest_water_levels none (some []) [] [] [] = [] :=
  ⟨((c9_latest_filename ["2024-01-01-00-00-water-level.json", "readme.md",
        "2024-01-02-12-00-water-level.json"]).2.1
      "2024-01-02-12-00-water-level.json" (by decide)).1,
   ((c9_latest_filename ["2024-01-01-00-00-water-level.json", "readme.md",
        "2024-01-02-12-00-water-level.json"]).2.1
      "2024-01-02-12-00-water-level.json" (by decide)).2.2
     "2024-01-01-00-00-water-level.json" (by decide) (by decide),
   (c9_latest_filename []).2.2.2 (some []) [] [] []⟩

/-! ## Claim C10 -/

/-- Claim C10: every record the merge engine produces has an empty
river_basin_name; consequently `get_river_basins` on such a snapshot is
always the empty list and `get_basin_by_name` returns None for every queried
name, whatever the upstream feeds contain. -/
theorem c10_basins : ∀ (fn : Option String) (data : Option (List DmcItem)) irr ss is,
    (∀ r ∈ get_latest_water_levels fn data irr ss is, r.river_basin_name = "") ∧
    get_river_basins (get_latest_water_levels fn data irr ss is) = [] ∧
    (∀ name, get_basin_by_name name (get_latest_water_levels fn data irr ss is) = none) := by
  intro fn data irr ss is
  have hempty : ∀ r ∈ get_latest_water_levels fn data irr ss is, r.river_basin_name = "" := by
    intro r hr
    rcases fn with _ | fname
    · simp [get_latest_water_levels] at hr
    rcases data with _ | d_list
    · simp [get_latest_water_levels] at hr
    simp only [get_latest_water_levels, List.mem_map] at hr
    obtain ⟨item, _, rfl⟩ := hr
    rfl
  refine ⟨hempty, get_river_basins_of_all_empty _ hempty, fun name => ?_⟩
  unfold get_basin_by_name
  rw [get_river_basins_of_all_empty _ hempty]
  rfl

/-- Witness for C10 at a singleton snapshot. -/
theorem c10_basins_witness :
    (mergeItem (parse_timestamp_from_filename "f-water-level.json") []
       (build_station_data []) (build_irrigation_station_data [])
       c10Item).river_basin_name = "" ∧
    get_river_basins (get_latest_water_levels (some "f-water-level.json")
      (some [c10Item]) [] [] []) = [] ∧
    get_basin_by_name "Kelani Ganga (RB 01)" (get_latest_water_levels
      (some "f-water-level.json") (some [c10Item]) [] [] []) = none :=
  ⟨(c10_basins (some "f-water-level.json") (some [c10Item]) [] [] []).1 _
     (List.mem_singleton.mpr rfl),
   (c10_basins (some "f-water-level.json") (some [c10Item]) [] [] []).2.1,
   (c10_basins (some "f-water-level.json") (some [c10Item]) [] [] []).2.2
     "Kelani Ganga (RB 01)"⟩

end LkFloodApi
